import Mathlib

/-!
Shallow embedding of the SPDM responder dispatch and session state machine
from `spdmlib/src/responder/context.rs` (ResponderContext::send_message,
process_message, dispatch_message, dispatch_secured_message,
dispatch_secured_app_message).

Byte buffers are `List Nat` (each element a u8 value).  External
collaborators (device I/O, transport encap, AEAD) are parameters: a
boolean or `Option` oracle stands for the outcome of each collaborator
call.  A Rust panic (`unwrap` failure, out-of-bounds index) is `none`.
-/

namespace Spdm

/-- Modelled from the spec: `SpdmConnectionState` (crate `common`, not under
`src/`), the monotone enumeration NotStarted → AfterVersion →
AfterCapabilities → Negotiated → AfterDigest → AfterCertificate →
Authenticated, with `get_u8` returning the ordinal wire value. -/
inductive SpdmConnectionState
  | NotStarted
  | AfterVersion
  | AfterCapabilities
  | Negotiated
  | AfterDigest
  | AfterCertificate
  | Authenticated
  deriving DecidableEq, Repr

/-- Ordinal value of a connection state, as `SpdmConnectionState::get_u8`. -/
def SpdmConnectionState.get_u8 : SpdmConnectionState → Nat
  | .NotStarted => 0
  | .AfterVersion => 1
  | .AfterCapabilities => 2
  | .Negotiated => 3
  | .AfterDigest => 4
  | .AfterCertificate => 5
  | .Authenticated => 6

/-- Modelled from the spec: `SpdmSessionState` (crate `common::session`, not
under `src/`): state ∈ \x7bNotStarted, Handshaking, Established, Unknown(x)\x7d. -/
inductive SpdmSessionState
  | NotStarted
  | Handshaking
  | Established
  | Unknown (x : Nat)
  deriving DecidableEq, Repr

/-- Modelled from the spec: a session record of the fixed-capacity session
table; only the fields the dispatcher consults (id and state). -/
structure SpdmSession where
  session_id : Nat
  session_state : SpdmSessionState
  deriving DecidableEq, Repr

/-- Modelled from the spec: requester capability flags
(`SpdmRequestCapabilityFlags`, crate `protocol`, not under `src/`); the
bitflag membership test `contains` is a boolean field per capability the
dispatcher consults. -/
structure SpdmRequestCapabilityFlags where
  handshake_in_the_clear_cap : Bool
  deriving DecidableEq, Repr

/-- Modelled from the spec: responder capability flags
(`SpdmResponseCapabilityFlags`, crate `protocol`, not under `src/`). -/
structure SpdmResponseCapabilityFlags where
  handshake_in_the_clear_cap : Bool
  deriving DecidableEq, Repr

/-- Negotiated parameters consulted by the dispatcher
(`common::SpdmNegotiateInfo`, fields as used in `context.rs`). -/
structure SpdmNegotiateInfo where
  spdm_version_sel : Nat
  req_data_transfer_size_sel : Nat
  req_capabilities_sel : SpdmRequestCapabilityFlags
  rsp_capabilities_sel : SpdmResponseCapabilityFlags
  deriving DecidableEq, Repr

/-- Runtime state consulted by the dispatcher (`common::SpdmRuntimeInfo`):
current connection state and the last-session-id used for in-the-clear
FINISH. -/
structure SpdmRuntimeInfo where
  connection_state : SpdmConnectionState
  last_session_id : Option Nat
  deriving DecidableEq, Repr

/-- The responder state the dispatcher reads and writes
(`common::SpdmContext` restricted to the fields `context.rs` touches). -/
structure SpdmContext where
  negotiate_info : SpdmNegotiateInfo
  runtime_info : SpdmRuntimeInfo
  sessions : List SpdmSession
  deriving DecidableEq, Repr

/-- `SpdmContext::get_session_via_id` / `get_immutable_session_via_id`:
lookup of a session by id in the session table. -/
def get_session_via_id (ctx : SpdmContext) (session_id : Nat) :
    Option SpdmSession :=
  ctx.sessions.find? (fun s => s.session_id == session_id)

/-- `SpdmRuntimeInfo::set_connection_state`. -/
def SpdmContext.set_connection_state (ctx : SpdmContext)
    (cs : SpdmConnectionState) : SpdmContext :=
  { ctx with runtime_info := { ctx.runtime_info with connection_state := cs } }

/-- `SpdmRuntimeInfo::set_last_session_id`. -/
def SpdmContext.set_last_session_id (ctx : SpdmContext)
    (sid : Option Nat) : SpdmContext :=
  { ctx with runtime_info := { ctx.runtime_info with last_session_id := sid } }

/-- `SpdmSession::set_session_state` applied to the session found by id. -/
def SpdmContext.set_session_state_via_id (ctx : SpdmContext)
    (session_id : Nat) (st : SpdmSessionState) : SpdmContext :=
  { ctx with
    sessions := ctx.sessions.map (fun s =>
      if s.session_id == session_id then { s with session_state := st } else s) }

/-- Modelled from the spec: `SpdmSession::teardown` (crate `common::session`,
not under `src/`): the session slot is zeroized and freed, so a subsequent
lookup by that id returns absent. -/
def teardown_session (ctx : SpdmContext) (session_id : Nat) : SpdmContext :=
  { ctx with
    sessions := ctx.sessions.filter (fun s => s.session_id != session_id) }

/-- Modelled from the spec: the DSP0274 request/response code wire values
(crate `message`, not under `src/`). -/
def SpdmResponseDigests : Nat := 0x01

def SpdmResponseCertificate : Nat := 0x02

def SpdmResponseChallengeAuth : Nat := 0x03

def SpdmResponseVersion : Nat := 0x04

def SpdmResponseMeasurements : Nat := 0x60

def SpdmResponseCapabilities : Nat := 0x61

def SpdmResponseAlgorithms : Nat := 0x63

def SpdmResponseKeyExchangeRsp : Nat := 0x64

def SpdmResponseFinishRsp : Nat := 0x65

def SpdmResponsePskExchangeRsp : Nat := 0x66

def SpdmResponsePskFinishRsp : Nat := 0x67

def SpdmResponseHeartbeatAck : Nat := 0x68

def SpdmResponseKeyUpdateAck : Nat := 0x69

def SpdmResponseEndSessionAck : Nat := 0x6C

def SpdmResponseError : Nat := 0x7F

def SpdmRequestGetDigests : Nat := 0x81

def SpdmRequestGetCertificate : Nat := 0x82

def SpdmRequestChallenge : Nat := 0x83

def SpdmRequestGetVersion : Nat := 0x84

def SpdmRequestGetMeasurements : Nat := 0xE0

def SpdmRequestGetCapabilities : Nat := 0xE1

def SpdmRequestNegotiateAlgorithms : Nat := 0xE3

def SpdmRequestKeyExchange : Nat := 0xE4

def SpdmRequestFinish : Nat := 0xE5

def SpdmRequestPskExchange : Nat := 0xE6

def SpdmRequestPskFinish : Nat := 0xE7

def SpdmRequestHeartbeat : Nat := 0xE8

def SpdmRequestKeyUpdate : Nat := 0xE9

def SpdmRequestGetEncapsulatedRequest : Nat := 0xEA

def SpdmRequestDeliverEncapsulatedResponse : Nat := 0xEB

def SpdmRequestEndSession : Nat := 0xEC

def SpdmRequestVendorDefinedRequest : Nat := 0xFE

def SpdmRequestResponseIfReady : Nat := 0xFF

/-- Modelled from the spec: SPDM error codes (`SpdmErrorCode`, crate
`message`, not under `src/`), with their DSP0274 wire values. -/
inductive SpdmErrorCode
  | SpdmErrorInvalidRequest
  | SpdmErrorUnexpectedRequest
  | SpdmErrorUnsupportedRequest
  | SpdmErrorSessionRequired
  | SpdmErrorResponseTooLarge
  | SpdmErrorVersionMismatch
  deriving DecidableEq, Repr

/-- DSP0274 wire value of an error code. -/
def SpdmErrorCode.get_u8 : SpdmErrorCode → Nat
  | .SpdmErrorInvalidRequest => 0x01
  | .SpdmErrorUnexpectedRequest => 0x04
  | .SpdmErrorUnsupportedRequest => 0x07
  | .SpdmErrorSessionRequired => 0x0B
  | .SpdmErrorResponseTooLarge => 0x0D
  | .SpdmErrorVersionMismatch => 0x41

/-- Internal `SpdmStatus` values that `context.rs` returns without emitting
a response (`SPDM_STATUS_UNSUPPORTED_CAP`), plus a stand-in for the error
statuses propagated by `?` from the I/O and encode collaborators. -/
inductive SpdmStatus
  | unsupportedCap
  | ioError
  deriving DecidableEq, Repr

/-- `SpdmResult` is Rust `Result<(), SpdmStatus>`. -/
inductive SpdmResultE
  | ok
  | err (status : SpdmStatus)
  deriving DecidableEq, Repr

/-- Modelled from the spec: `write_spdm_error` (§4.4): a framed SPDM ERROR
message — header (version, ERROR code 0x7F, error code byte, error data
byte). -/
def write_spdm_error (version : Nat) (error_code : SpdmErrorCode)
    (error_data : Nat) : List Nat :=
  [version, SpdmResponseError, error_code.get_u8, error_data]

/-- The buffer actually transmitted by `send_message` (context.rs lines
46–59): oversize replies are overwritten with ERROR ResponseTooLarge, app
messages without a session with ERROR SessionRequired, anything else is
passed through unchanged. -/
def effective_send_buffer (ctx : SpdmContext) (session_id : Option Nat)
    (send_buffer : List Nat) (is_app_message : Bool) : List Nat :=
  if ctx.negotiate_info.req_data_transfer_size_sel ≠ 0 ∧
      ctx.negotiate_info.req_data_transfer_size_sel < send_buffer.length then
    write_spdm_error ctx.negotiate_info.spdm_version_sel
      .SpdmErrorResponseTooLarge 0
  else if is_app_message = true ∧ session_id = none then
    write_spdm_error ctx.negotiate_info.spdm_version_sel
      .SpdmErrorSessionRequired 0
  else send_buffer

/-- The post-send state update of `ResponderContext::send_message`
(context.rs lines 84–140), keyed on the opcode byte `send_buffer[1]` of
the transmitted buffer.  `none` models a Rust panic: one of the `unwrap`
calls on the last-session-id / session-id / session lookups. -/
def send_state_update (ctx : SpdmContext) (session_id : Option Nat)
    (opcode : Nat) : Option SpdmContext :=
  if opcode = SpdmResponseVersion then
    some (ctx.set_connection_state .AfterVersion)
  else if opcode = SpdmResponseCapabilities then
    some (ctx.set_connection_state .AfterCapabilities)
  else if opcode = SpdmResponseAlgorithms then
    some (ctx.set_connection_state .Negotiated)
  else if opcode = SpdmResponseDigests then
    if ctx.runtime_info.connection_state.get_u8 <
        SpdmConnectionState.AfterDigest.get_u8 then
      some (ctx.set_connection_state .AfterDigest)
    else some ctx
  else if opcode = SpdmResponseCertificate then
    if ctx.runtime_info.connection_state.get_u8 <
        SpdmConnectionState.AfterCertificate.get_u8 then
      some (ctx.set_connection_state .AfterCertificate)
    else some ctx
  else if opcode = SpdmResponseChallengeAuth then
    some (ctx.set_connection_state .Authenticated)
  else if opcode = SpdmResponseFinishRsp ∧ session_id = none then
    match ctx.runtime_info.last_session_id with
    | none => none
    | some sid =>
      match get_session_via_id ctx sid with
      | none => none
      | some _ =>
        some ((ctx.set_session_state_via_id sid .Established).set_last_session_id
          none)
  else if opcode = SpdmResponseEndSessionAck then
    match session_id with
    | none => none
    | some sid =>
      match get_session_via_id ctx sid with
      | none => none
      | some _ => some (teardown_session ctx sid)
  else if (opcode = SpdmResponseFinishRsp ∨ opcode = SpdmResponsePskFinishRsp)
      ∧ session_id ≠ none then
    match session_id with
    | none => none
    | some sid =>
      match get_session_via_id ctx sid with
      | none => none
      | some _ => some (ctx.set_session_state_via_id sid .Established)
  else some ctx

/-- `ResponderContext::send_message`.  `io_ok` is the outcome of the
encode/encap and device-send collaborator calls (their `?` operators):
when false the function returns early with an error and no state change.
`none` models a Rust panic: the `send_buffer[1]` index on a short buffer,
or a panic inside `send_state_update`. -/
def send_message (ctx : SpdmContext) (session_id : Option Nat)
    (send_buffer : List Nat) (is_app_message : Bool) (io_ok : Bool) :
    Option (SpdmResultE × SpdmContext) :=
  if io_ok = false then some (SpdmResultE.err SpdmStatus.ioError, ctx)
  else if (effective_send_buffer ctx session_id send_buffer
      is_app_message).length < 2 then none
  else
    match send_state_update ctx session_id
        ((effective_send_buffer ctx session_id send_buffer
          is_app_message).getD 1 0) with
    | none => none
    | some ctx2 => some (SpdmResultE.ok, ctx2)

/-- `SpdmMessageHeader` (crate `message`): the two leading bytes of every
SPDM message, version then request/response code. -/
structure SpdmMessageHeader where
  version : Nat
  request_response_code : Nat
  deriving DecidableEq, Repr

/-- `SpdmMessageHeader::read`: reads the version byte and the code byte;
absent when fewer than two bytes remain. -/
def SpdmMessageHeader.read (bytes : List Nat) : Option SpdmMessageHeader :=
  match bytes with
  | v :: c :: _ => some ⟨v, c⟩
  | _ => none

/-- The handler a dispatch arm invokes (`handle_spdm_version`,
`handle_spdm_finish`, ...). -/
inductive HandlerName
  | version
  | capability
  | algorithm
  | digest
  | certificate
  | challenge
  | measurement
  | key_exchange
  | psk_exchange
  | finish
  | psk_finish
  | heartbeat
  | key_update
  | end_session
  | vendor_defined_request
  | get_encapsulated_request
  | deliver_encapsulated_response
  deriving DecidableEq, Repr

/-- Which arm of a dispatch match was taken: a request handler was invoked
with the given session id argument, `handle_error_request` was invoked
with the given SPDM error code (it emits an SPDM ERROR response), or the
dispatch returned an internal error status without invoking anything. -/
inductive HandlerOutcome
  | handler (h : HandlerName) (session_id : Option Nat)
  | errorRequest (code : SpdmErrorCode) (session_id : Option Nat)
  | statusErr (status : SpdmStatus)
  deriving DecidableEq, Repr

/-- The `in_clear_text` test computed in `dispatch_secured_message` and in
the FINISH arm of `dispatch_message`: both negotiated capability sets
contain HANDSHAKE_IN_THE_CLEAR_CAP. -/
def handshake_in_the_clear (ctx : SpdmContext) : Bool :=
  ctx.negotiate_info.req_capabilities_sel.handshake_in_the_clear_cap &&
    ctx.negotiate_info.rsp_capabilities_sel.handshake_in_the_clear_cap

/-- `ResponderContext::dispatch_secured_message` (context.rs lines
267–413), with the mut-auth feature compiled in.  Returns which arm runs;
handler bodies are external to this file. -/
def dispatch_secured_message (ctx : SpdmContext) (session_id : Nat)
    (bytes : List Nat) : HandlerOutcome :=
  match get_session_via_id ctx session_id with
  | none => .statusErr .unsupportedCap
  | some session =>
    match session.session_state with
    | .Handshaking =>
      if handshake_in_the_clear ctx then .statusErr .unsupportedCap
      else
        match SpdmMessageHeader.read bytes with
        | none => .statusErr .unsupportedCap
        | some message_header =>
          let c := message_header.request_response_code
          if c = SpdmRequestGetEncapsulatedRequest then
            .handler .get_encapsulated_request (some session_id)
          else if c = SpdmRequestDeliverEncapsulatedResponse then
            .handler .deliver_encapsulated_response (some session_id)
          else if c = SpdmRequestFinish then
            .handler .finish (some session_id)
          else if c = SpdmRequestPskFinish then
            .handler .psk_finish (some session_id)
          else if c = SpdmRequestVendorDefinedRequest then
            .handler .vendor_defined_request (some session_id)
          else if c = SpdmRequestGetVersion ∨ c = SpdmRequestGetCapabilities ∨
              c = SpdmRequestNegotiateAlgorithms ∨ c = SpdmRequestGetDigests ∨
              c = SpdmRequestGetCertificate ∨ c = SpdmRequestChallenge ∨
              c = SpdmRequestGetMeasurements ∨ c = SpdmRequestKeyExchange ∨
              c = SpdmRequestPskExchange ∨ c = SpdmRequestHeartbeat ∨
              c = SpdmRequestKeyUpdate ∨ c = SpdmRequestEndSession then
            .errorRequest .SpdmErrorUnexpectedRequest (some session_id)
          else if c = SpdmRequestResponseIfReady then
            .errorRequest .SpdmErrorUnsupportedRequest (some session_id)
          else .statusErr .unsupportedCap
    | .Established =>
      match SpdmMessageHeader.read bytes with
      | none => .statusErr .unsupportedCap
      | some message_header =>
        let c := message_header.request_response_code
        if c = SpdmRequestGetDigests then
          .handler .digest (some session_id)
        else if c = SpdmRequestGetCertificate then
          .handler .certificate (some session_id)
        else if c = SpdmRequestGetMeasurements then
          .handler .measurement (some session_id)
        else if c = SpdmRequestHeartbeat then
          .handler .heartbeat (some session_id)
        else if c = SpdmRequestKeyUpdate then
          .handler .key_update (some session_id)
        else if c = SpdmRequestEndSession then
          .handler .end_session (some session_id)
        else if c = SpdmRequestVendorDefinedRequest then
          .handler .vendor_defined_request (some session_id)
        else if c = SpdmRequestGetVersion ∨ c = SpdmRequestGetCapabilities ∨
            c = SpdmRequestNegotiateAlgorithms ∨ c = SpdmRequestChallenge ∨
            c = SpdmRequestKeyExchange ∨ c = SpdmRequestPskExchange ∨
            c = SpdmRequestFinish ∨ c = SpdmRequestPskFinish then
          .errorRequest .SpdmErrorUnexpectedRequest (some session_id)
        else if c = SpdmRequestResponseIfReady then
          .errorRequest .SpdmErrorUnsupportedRequest (some session_id)
        else .statusErr .unsupportedCap
    | .NotStarted => .statusErr .unsupportedCap
    | .Unknown _ => .statusErr .unsupportedCap

/-- `ResponderContext::dispatch_message` (context.rs lines 429–525): the
clear-text dispatch by request code. -/
def dispatch_message (ctx : SpdmContext) (bytes : List Nat) : HandlerOutcome :=
  match SpdmMessageHeader.read bytes with
  | none => .statusErr .unsupportedCap
  | some message_header =>
    let c := message_header.request_response_code
    if c = SpdmRequestGetVersion then .handler .version none
    else if c = SpdmRequestGetCapabilities then .handler .capability none
    else if c = SpdmRequestNegotiateAlgorithms then .handler .algorithm none
    else if c = SpdmRequestGetDigests then .handler .digest none
    else if c = SpdmRequestGetCertificate then .handler .certificate none
    else if c = SpdmRequestChallenge then .handler .challenge none
    else if c = SpdmRequestGetMeasurements then .handler .measurement none
    else if c = SpdmRequestKeyExchange then .handler .key_exchange none
    else if c = SpdmRequestPskExchange then .handler .psk_exchange none
    else if c = SpdmRequestVendorDefinedRequest then
      .handler .vendor_defined_request none
    else if c = SpdmRequestFinish then
      if handshake_in_the_clear ctx then
        match ctx.runtime_info.last_session_id with
        | some session_id =>
          match get_session_via_id ctx session_id with
          | some session =>
            if session.session_state = SpdmSessionState.Handshaking then
              .handler .finish (some session_id)
            else .errorRequest .SpdmErrorUnexpectedRequest none
          | none => .errorRequest .SpdmErrorUnexpectedRequest none
        | none => .errorRequest .SpdmErrorUnexpectedRequest none
      else .errorRequest .SpdmErrorUnexpectedRequest none
    else if c = SpdmRequestPskFinish ∨ c = SpdmRequestHeartbeat ∨
        c = SpdmRequestKeyUpdate ∨ c = SpdmRequestEndSession then
      .errorRequest .SpdmErrorUnexpectedRequest none
    else if c = SpdmRequestResponseIfReady then
      .errorRequest .SpdmErrorUnsupportedRequest none
    else .statusErr .unsupportedCap

/-- `u32::read` of the codec: little-endian u32 from the first four bytes;
absent when fewer than four bytes remain. -/
def u32_read (bytes : List Nat) : Option Nat :=
  match bytes with
  | b0 :: b1 :: b2 :: b3 :: _ =>
    some (b0 + 0x100 * b1 + 0x10000 * b2 + 0x1000000 * b3)
  | _ => none

/-- Modelled from the spec: `SpdmSession::decode_spdm_secured_message`
(crate `common::session`, not under `src/`): decrypt and authenticate via
the session AEAD; on failure the affected session is torn down (§7:
cryptographic failures during secured-message decrypt abort the exchange
and the affected session is torn down).  `decode_ok` is the AEAD
outcome. -/
def decode_spdm_secured_message (ctx : SpdmContext) (session_id : Nat)
    (decode_ok : Bool) : Option Unit × SpdmContext :=
  if decode_ok then (some (), ctx) else (none, teardown_session ctx session_id)

/-- Result of `ResponderContext::process_message`: either the raw received
bytes are surfaced to the caller (the Rust `Err((used, receive_buffer))`),
or a dispatch ran; the final context is carried along. -/
inductive ProcessOutcome
  | raw (used : Nat) (buffer : List Nat) (ctx : SpdmContext)
  | handledSecured (o : HandlerOutcome) (ctx : SpdmContext)
  | handledApp (ctx : SpdmContext)
  | handledClear (o : HandlerOutcome) (ctx : SpdmContext)
  deriving DecidableEq, Repr

/-- `ResponderContext::process_message` (context.rs lines 145–221) after a
successful receive of `receive_buffer` with the transport's `secured`
classification.  `decode_ok` is the session AEAD outcome and
`decap_app_result` the transport `decap_app` outcome (the decapsulated
SPDM buffer and the is-app flag); both collaborators are external. -/
def process_message (ctx : SpdmContext) (receive_buffer : List Nat)
    (secured_message : Bool) (decode_ok : Bool)
    (decap_app_result : Option (List Nat × Bool)) : ProcessOutcome :=
  if secured_message then
    match u32_read receive_buffer with
    | none => .raw receive_buffer.length receive_buffer ctx
    | some session_id =>
      match get_session_via_id ctx session_id with
      | none => .raw receive_buffer.length receive_buffer ctx
      | some _ =>
        match decode_spdm_secured_message ctx session_id decode_ok with
        | (none, ctx2) => .raw receive_buffer.length receive_buffer ctx2
        | (some _, ctx2) =>
          match decap_app_result with
          | none => .raw receive_buffer.length receive_buffer ctx2
          | some (spdm_buffer, is_app_message) =>
            if is_app_message then .handledApp ctx2
            else
              .handledSecured (dispatch_secured_message ctx2 session_id
                spdm_buffer) ctx2
  else .handledClear (dispatch_message ctx receive_buffer) ctx

/-- `ResponderContext::dispatch_secured_app_message` (context.rs lines
415–427): the result of `dispatch_secured_app_message_cb` (an external
callback, `cb_result`: the response app buffer, already truncated to its
size) is unwrapped unconditionally, then sent as an app message over the
session.  `none` models the panic when the callback errs. -/
def dispatch_secured_app_message (ctx : SpdmContext) (session_id : Nat)
    (cb_result : Option (List Nat)) (io_ok : Bool) :
    Option (SpdmResultE × SpdmContext) :=
  match cb_result with
  | none => none
  | some rsp_app_buffer =>
    send_message ctx (some session_id) rsp_app_buffer true io_ok

/-- The request codes rejected while Handshaking (the error arm of
context.rs lines 317–328). -/
def handshaking_forbidden_codes : List Nat :=
  [SpdmRequestGetVersion, SpdmRequestGetCapabilities,
   SpdmRequestNegotiateAlgorithms, SpdmRequestGetDigests,
   SpdmRequestGetCertificate, SpdmRequestChallenge,
   SpdmRequestGetMeasurements, SpdmRequestKeyExchange,
   SpdmRequestPskExchange, SpdmRequestHeartbeat, SpdmRequestKeyUpdate,
   SpdmRequestEndSession]

/-! Helper lemmas shared by the claim theorems. -/

theorem set_connection_state_conn (ctx : SpdmContext) (cs : SpdmConnectionState) :
    (ctx.set_connection_state cs).runtime_info.connection_state = cs := rfl

theorem set_session_state_via_id_runtime (ctx : SpdmContext) (sid : Nat)
    (st : SpdmSessionState) :
    (ctx.set_session_state_via_id sid st).runtime_info = ctx.runtime_info := rfl

theorem teardown_session_runtime (ctx : SpdmContext) (sid : Nat) :
    (teardown_session ctx sid).runtime_info = ctx.runtime_info := rfl

theorem connection_state_get_u8_le_six (s : SpdmConnectionState) :
    s.get_u8 ≤ 6 := by
  cases s <;> simp [SpdmConnectionState.get_u8]

theorem getD_one_ne_zero_two_le_length (l : List Nat) (h : l.getD 1 0 ≠ 0) :
    2 ≤ l.length := by
  match l with
  | [] => simp [List.getD] at h
  | [a] => simp [List.getD] at h
  | a :: b :: t => simp only [List.length_cons]; omega

theorem find_map_set_state (sid : Nat) (st : SpdmSessionState)
    (l : List SpdmSession) (sess : SpdmSession)
    (h : l.find? (fun s => s.session_id == sid) = some sess) :
    (l.map (fun s =>
        if s.session_id == sid then { s with session_state := st } else s)).find?
      (fun s => s.session_id == sid) = some ⟨sid, st⟩ := by
  induction l with
  | nil => simp at h
  | cons a l ih =>
    by_cases ha : a.session_id = sid
    · simp only [List.map_cons]
      rw [List.find?_cons_of_pos _ (by simp [ha])]
      simp [ha]
    · simp only [List.map_cons]
      rw [List.find?_cons_of_neg _ (by simp [ha])] at h
      rw [List.find?_cons_of_neg _ (by simp [ha])]
      exact ih h

theorem get_session_via_id_set_state (ctx : SpdmContext) (sid : Nat)
    (st : SpdmSessionState) (sess : SpdmSession)
    (h : get_session_via_id ctx sid = some sess) :
    get_session_via_id (ctx.set_session_state_via_id sid st) sid =
      some ⟨sid, st⟩ :=
  find_map_set_state sid st ctx.sessions sess h

theorem get_session_via_id_teardown (ctx : SpdmContext) (sid : Nat) :
    get_session_via_id (teardown_session ctx sid) sid = none := by
  unfold get_session_via_id teardown_session
  rw [List.find?_eq_none]
  intro x hx
  rcases List.mem_filter.mp hx with ⟨_, hpx⟩
  simp only [bne_iff_ne, ne_eq, decide_eq_true_eq] at hpx
  simp [hpx]

theorem get_session_via_id_set_last (ctx : SpdmContext) (o : Option Nat)
    (sid : Nat) :
    get_session_via_id (ctx.set_last_session_id o) sid =
      get_session_via_id ctx sid := rfl

theorem send_message_eq_update (ctx : SpdmContext) (session_id : Option Nat)
    (send_buffer : List Nat) (is_app_message : Bool)
    (hlen : ¬ (effective_send_buffer ctx session_id send_buffer
      is_app_message).length < 2) :
    send_message ctx session_id send_buffer is_app_message true =
      (send_state_update ctx session_id
        ((effective_send_buffer ctx session_id send_buffer
          is_app_message).getD 1 0)).map
        (fun c => (SpdmResultE.ok, c)) := by
  unfold send_message
  rw [if_neg (by simp : ¬ (true = false)), if_neg hlen]
  rcases send_state_update ctx session_id
    ((effective_send_buffer ctx session_id send_buffer
      is_app_message).getD 1 0) with _ | c <;> simp

/-! Claim theorems. -/

/-- C1 (counterexample).  Two successive successful responses where the
connection state after the second is strictly below the state after the
first: after an ALGORITHMS response the state is Negotiated; a subsequent
VERSION response (a GET_VERSION is dispatched in any state) resets it to
AfterVersion < Negotiated. -/
theorem version_response_regresses_connection_state :
    send_message ⟨⟨0x12, 0, ⟨false⟩, ⟨false⟩⟩, ⟨.AfterCapabilities, none⟩, []⟩
        none [0x12, 0x63, 0x00, 0x00] false true =
      some (SpdmResultE.ok,
        ⟨⟨0x12, 0, ⟨false⟩, ⟨false⟩⟩, ⟨.Negotiated, none⟩, []⟩) ∧
    send_message ⟨⟨0x12, 0, ⟨false⟩, ⟨false⟩⟩, ⟨.Negotiated, none⟩, []⟩
        none [0x12, 0x04, 0x00, 0x00] false true =
      some (SpdmResultE.ok,
        ⟨⟨0x12, 0, ⟨false⟩, ⟨false⟩⟩, ⟨.AfterVersion, none⟩, []⟩) ∧
    SpdmConnectionState.AfterVersion.get_u8 <
      SpdmConnectionState.Negotiated.get_u8 :=
  ⟨by decide, by decide, by decide⟩

/-- C1 (amended).  For every successful `send_message` whose transmitted
opcode is not VERSION, CAPABILITIES, or ALGORITHMS, the connection state
never decreases; those three renegotiation responses instead set the
state to a fixed value (AfterVersion / AfterCapabilities / Negotiated),
which may decrease it when a requester restarts negotiation. -/
theorem connection_state_monotone_non_renegotiation
    (ctx : SpdmContext) (session_id : Option Nat) (send_buffer : List Nat)
    (is_app_message : Bool) (r : SpdmResultE) (ctx2 : SpdmContext)
    (h1 : (effective_send_buffer ctx session_id send_buffer
      is_app_message).getD 1 0 ≠ SpdmResponseVersion)
    (h2 : (effective_send_buffer ctx session_id send_buffer
      is_app_message).getD 1 0 ≠ SpdmResponseCapabilities)
    (h3 : (effective_send_buffer ctx session_id send_buffer
      is_app_message).getD 1 0 ≠ SpdmResponseAlgorithms)
    (h : send_message ctx session_id send_buffer is_app_message true =
      some (r, ctx2)) :
    ctx.runtime_info.connection_state.get_u8 ≤
      ctx2.runtime_info.connection_state.get_u8 := by
  by_cases hlen : (effective_send_buffer ctx session_id send_buffer
      is_app_message).length < 2
  · unfold send_message at h
    rw [if_neg (by simp : ¬ (true = false)), if_pos hlen] at h
    exact absurd h (by simp)
  · rw [send_message_eq_update ctx session_id send_buffer is_app_message hlen,
      Option.map_eq_some'] at h
    obtain ⟨c, hc, hrc⟩ := h
    cases hrc
    unfold send_state_update at hc
    rw [if_neg h1, if_neg h2, if_neg h3] at hc
    split_ifs at hc with h4 h5 h6 h7 h8 h9 h10
    · injection hc with hc'
      rw [← hc']
      simp only [SpdmContext.set_connection_state,
        SpdmConnectionState.get_u8] at *
      omega
    · injection hc with hc'
      rw [← hc']
    · injection hc with hc'
      rw [← hc']
      simp only [SpdmContext.set_connection_state,
        SpdmConnectionState.get_u8] at *
      omega
    · injection hc with hc'
      rw [← hc']
    · injection hc with hc'
      rw [← hc']
      have := connection_state_get_u8_le_six ctx.runtime_info.connection_state
      simp only [SpdmContext.set_connection_state,
        SpdmConnectionState.get_u8] at *
      omega
    · rcases hL : ctx.runtime_info.last_session_id with _ | sid
      · simp only [hL] at hc
        exact absurd hc (by simp)
      · simp only [hL] at hc
        rcases hQ : get_session_via_id ctx sid with _ | s
        · simp only [hQ] at hc
          exact absurd hc (by simp)
        · simp only [hQ] at hc
          injection hc with hc'
          rw [← hc']
          simp [SpdmContext.set_last_session_id,
            SpdmContext.set_session_state_via_id]
    · rcases session_id with _ | sid
      · simp only [] at hc
        exact absurd hc (by simp)
      · simp only [] at hc
        rcases hQ : get_session_via_id ctx sid with _ | s
        · simp only [hQ] at hc
          exact absurd hc (by simp)
        · simp only [hQ] at hc
          injection hc with hc'
          rw [← hc']
          simp [teardown_session]
    · rcases session_id with _ | sid
      · simp only [] at hc
        exact absurd hc (by simp)
      · simp only [] at hc
        rcases hQ : get_session_via_id ctx sid with _ | s
        · simp only [hQ] at hc
          exact absurd hc (by simp)
        · simp only [hQ] at hc
          injection hc with hc'
          rw [← hc']
          simp [SpdmContext.set_session_state_via_id]
    · injection hc with hc'
      rw [← hc']

/-- Witness for the amended C1: a DIGESTS response sent at NotStarted raises
the state to AfterDigest (0 ≤ 4). -/
theorem connection_state_monotone_non_renegotiation_witness :
    (⟨⟨0x12, 0, ⟨false⟩, ⟨false⟩⟩, ⟨.NotStarted, none⟩, []⟩ :
        SpdmContext).runtime_info.connection_state.get_u8 ≤
      (⟨⟨0x12, 0, ⟨false⟩, ⟨false⟩⟩, ⟨.AfterDigest, none⟩, []⟩ :
        SpdmContext).runtime_info.connection_state.get_u8 :=
  connection_state_monotone_non_renegotiation
    ⟨⟨0x12, 0, ⟨false⟩, ⟨false⟩⟩, ⟨.NotStarted, none⟩, []⟩ none
    [0x12, 0x01, 0x00, 0x00] false SpdmResultE.ok
    ⟨⟨0x12, 0, ⟨false⟩, ⟨false⟩⟩, ⟨.AfterDigest, none⟩, []⟩
    (by decide) (by decide) (by decide) (by decide)

/-- C7.  When `send_message` transmits a DIGESTS (resp. CERTIFICATE)
response, the connection state is advanced to AfterDigest (resp.
AfterCertificate) only from a strictly lower state, so afterwards it
equals the maximum of the previous state and AfterDigest (resp.
AfterCertificate); a later state is never regressed. -/
theorem digest_certificate_connection_state_max
    (ctx : SpdmContext) (session_id : Option Nat) (send_buffer : List Nat)
    (is_app_message : Bool) (r : SpdmResultE) (ctx2 : SpdmContext)
    (h : send_message ctx session_id send_buffer is_app_message true =
      some (r, ctx2)) :
    ((effective_send_buffer ctx session_id send_buffer
        is_app_message).getD 1 0 = SpdmResponseDigests →
      ctx2.runtime_info.connection_state.get_u8 =
        max ctx.runtime_info.connection_state.get_u8
          SpdmConnectionState.AfterDigest.get_u8) ∧
    ((effective_send_buffer ctx session_id send_buffer
        is_app_message).getD 1 0 = SpdmResponseCertificate →
      ctx2.runtime_info.connection_state.get_u8 =
        max ctx.runtime_info.connection_state.get_u8
          SpdmConnectionState.AfterCertificate.get_u8) := by
  constructor
  · intro hop
    have hlen : ¬ (effective_send_buffer ctx session_id send_buffer
        is_app_message).length < 2 := by
      have := getD_one_ne_zero_two_le_length
        (effective_send_buffer ctx session_id send_buffer is_app_message)
        (by rw [hop]; simp [SpdmResponseDigests])
      omega
    rw [send_message_eq_update ctx session_id send_buffer is_app_message hlen,
      hop, Option.map_eq_some'] at h
    obtain ⟨c, hc, hrc⟩ := h
    cases hrc
    unfold send_state_update at hc
    norm_num [SpdmResponseDigests, SpdmResponseVersion,
      SpdmResponseCapabilities, SpdmResponseAlgorithms] at hc
    by_cases hcs : ctx.runtime_info.connection_state.get_u8 <
        SpdmConnectionState.AfterDigest.get_u8
    · rw [if_pos hcs] at hc
      injection hc with hc'
      rw [← hc']
      simp only [SpdmContext.set_connection_state,
        SpdmConnectionState.get_u8] at *
      omega
    · rw [if_neg hcs] at hc
      injection hc with hc'
      rw [← hc']
      simp only [SpdmConnectionState.get_u8] at *
      omega
  · intro hop
    have hlen : ¬ (effective_send_buffer ctx session_id send_buffer
        is_app_message).length < 2 := by
      have := getD_one_ne_zero_two_le_length
        (effective_send_buffer ctx session_id send_buffer is_app_message)
        (by rw [hop]; simp [SpdmResponseCertificate])
      omega
    rw [send_message_eq_update ctx session_id send_buffer is_app_message hlen,
      hop, Option.map_eq_some'] at h
    obtain ⟨c, hc, hrc⟩ := h
    cases hrc
    unfold send_state_update at hc
    norm_num [SpdmResponseDigests, SpdmResponseVersion, SpdmResponseCertificate,
      SpdmResponseCapabilities, SpdmResponseAlgorithms] at hc
    by_cases hcs : ctx.runtime_info.connection_state.get_u8 <
        SpdmConnectionState.AfterCertificate.get_u8
    · rw [if_pos hcs] at hc
      injection hc with hc'
      rw [← hc']
      simp only [SpdmContext.set_connection_state,
        SpdmConnectionState.get_u8] at *
      omega
    · rw [if_neg hcs] at hc
      injection hc with hc'
      rw [← hc']
      simp only [SpdmConnectionState.get_u8] at *
      omega

/-- C9.  Panic conditions of `send_message` (context.rs lines 117–130):
with no session id and a FINISH_RSP opcode the stored last-session-id and
the session it names are both unwrapped, so their absence panics; an
END_SESSION_ACK whose session id has no matching session also panics; when
the lookups succeed the FINISH_RSP path returns without panicking. -/
theorem send_message_unwrap_panics (ctx : SpdmContext) (send_buffer : List Nat)
    (hsize : ¬ (ctx.negotiate_info.req_data_transfer_size_sel ≠ 0 ∧
      ctx.negotiate_info.req_data_transfer_size_sel < send_buffer.length)) :
    (send_buffer.getD 1 0 = SpdmResponseFinishRsp →
      ctx.runtime_info.last_session_id = none →
      send_message ctx none send_buffer false true = none) ∧
    (∀ sid, send_buffer.getD 1 0 = SpdmResponseFinishRsp →
      ctx.runtime_info.last_session_id = some sid →
      get_session_via_id ctx sid = none →
      send_message ctx none send_buffer false true = none) ∧
    (∀ sid, send_buffer.getD 1 0 = SpdmResponseEndSessionAck →
      get_session_via_id ctx sid = none →
      send_message ctx (some sid) send_buffer false true = none) ∧
    (∀ sid sess, send_buffer.getD 1 0 = SpdmResponseFinishRsp →
      ctx.runtime_info.last_session_id = some sid →
      get_session_via_id ctx sid = some sess →
      (send_message ctx none send_buffer false true).isSome = true) := by
  have heff : ∀ s : Option Nat,
      effective_send_buffer ctx s send_buffer false = send_buffer := by
    intro s
    rw [effective_send_buffer, if_neg hsize, if_neg (by simp)]
  refine ⟨fun hop hL => ?_, fun sid hop hL hQ => ?_, fun sid hop hQ => ?_,
    fun sid sess hop hL hQ => ?_⟩
  · have hlen : ¬ (effective_send_buffer ctx none send_buffer
        false).length < 2 := by
      have := getD_one_ne_zero_two_le_length send_buffer
        (by rw [hop]; simp [SpdmResponseFinishRsp])
      rw [heff]; omega
    rw [send_message_eq_update ctx none send_buffer false hlen, heff, hop]
    simp [send_state_update, hL, SpdmResponseFinishRsp, SpdmResponseVersion,
      SpdmResponseCapabilities, SpdmResponseAlgorithms, SpdmResponseDigests,
      SpdmResponseCertificate, SpdmResponseChallengeAuth]
  · have hlen : ¬ (effective_send_buffer ctx none send_buffer
        false).length < 2 := by
      have := getD_one_ne_zero_two_le_length send_buffer
        (by rw [hop]; simp [SpdmResponseFinishRsp])
      rw [heff]; omega
    rw [send_message_eq_update ctx none send_buffer false hlen, heff, hop]
    simp [send_state_update, hL, hQ, SpdmResponseFinishRsp, SpdmResponseVersion,
      SpdmResponseCapabilities, SpdmResponseAlgorithms, SpdmResponseDigests,
      SpdmResponseCertificate, SpdmResponseChallengeAuth]
  · have hlen : ¬ (effective_send_buffer ctx (some sid) send_buffer
        false).length < 2 := by
      have := getD_one_ne_zero_two_le_length send_buffer
        (by rw [hop]; simp [SpdmResponseEndSessionAck])
      rw [heff]; omega
    rw [send_message_eq_update ctx (some sid) send_buffer false hlen, heff, hop]
    simp [send_state_update, hQ, SpdmResponseEndSessionAck, SpdmResponseVersion,
      SpdmResponseCapabilities, SpdmResponseAlgorithms, SpdmResponseDigests,
      SpdmResponseCertificate, SpdmResponseChallengeAuth,
      SpdmResponseFinishRsp]
  · have hlen : ¬ (effective_send_buffer ctx none send_buffer
        false).length < 2 := by
      have := getD_one_ne_zero_two_le_length send_buffer
        (by rw [hop]; simp [SpdmResponseFinishRsp])
      rw [heff]; omega
    rw [send_message_eq_update ctx none send_buffer false hlen, heff, hop]
    simp [send_state_update, hL, hQ, SpdmResponseFinishRsp, SpdmResponseVersion,
      SpdmResponseCapabilities, SpdmResponseAlgorithms, SpdmResponseDigests,
      SpdmResponseCertificate, SpdmResponseChallengeAuth]

/-- Witness for C9: sending FINISH_RSP with no session id while
`last_session_id` is unset panics. -/
theorem send_message_unwrap_panics_witness :
    send_message ⟨⟨0x12, 0, ⟨false⟩, ⟨false⟩⟩, ⟨.Negotiated, none⟩, []⟩ none
        [0x12, 0x65, 0x00, 0x00] false true = none :=
  (send_message_unwrap_panics
    ⟨⟨0x12, 0, ⟨false⟩, ⟨false⟩⟩, ⟨.Negotiated, none⟩, []⟩
    [0x12, 0x65, 0x00, 0x00] (by decide)).1 (by decide) rfl

/-- C2.  A secured-message dispatch invokes a request handler only when the
session exists and is Handshaking or Established; an absent session, or
one in NotStarted or Unknown state, makes the dispatch fail with
SPDM_STATUS_UNSUPPORTED_CAP without running any handler, and
`process_message` surfaces the raw received bytes when the session lookup
fails. -/
theorem secured_dispatch_session_gating (ctx : SpdmContext) (session_id : Nat)
    (bytes : List Nat) :
    (∀ hn s, dispatch_secured_message ctx session_id bytes =
        HandlerOutcome.handler hn s →
      ∃ sess, get_session_via_id ctx session_id = some sess ∧
        (sess.session_state = SpdmSessionState.Handshaking ∨
          sess.session_state = SpdmSessionState.Established)) ∧
    (get_session_via_id ctx session_id = none →
      dispatch_secured_message ctx session_id bytes =
        HandlerOutcome.statusErr SpdmStatus.unsupportedCap) ∧
    (∀ sess, get_session_via_id ctx session_id = some sess →
      sess.session_state = SpdmSessionState.NotStarted →
      dispatch_secured_message ctx session_id bytes =
        HandlerOutcome.statusErr SpdmStatus.unsupportedCap) ∧
    (∀ sess x, get_session_via_id ctx session_id = some sess →
      sess.session_state = SpdmSessionState.Unknown x →
      dispatch_secured_message ctx session_id bytes =
        HandlerOutcome.statusErr SpdmStatus.unsupportedCap) ∧
    (∀ decode_ok dar, get_session_via_id ctx session_id = none →
      u32_read bytes = some session_id →
      process_message ctx bytes true decode_ok dar =
        ProcessOutcome.raw bytes.length bytes ctx) := by
  refine ⟨fun hn s h => ?_, fun hq => ?_, fun sess hq hs => ?_,
    fun sess x hq hs => ?_, fun decode_ok dar hq hu => ?_⟩
  · rcases hq : get_session_via_id ctx session_id with _ | sess
    · simp [dispatch_secured_message, hq] at h
    · refine ⟨sess, rfl, ?_⟩
      cases hs : sess.session_state with
      | Handshaking => exact Or.inl rfl
      | Established => exact Or.inr rfl
      | NotStarted => simp [dispatch_secured_message, hq, hs] at h
      | Unknown x => simp [dispatch_secured_message, hq, hs] at h
  · simp [dispatch_secured_message, hq]
  · simp [dispatch_secured_message, hq, hs]
  · simp [dispatch_secured_message, hq, hs]
  · simp [process_message, hu, hq]

/-- Witness for C2: a secured FINISH for a session id with no session fails
with SPDM_STATUS_UNSUPPORTED_CAP. -/
theorem secured_dispatch_session_gating_witness :
    dispatch_secured_message
        ⟨⟨0x12, 0, ⟨false⟩, ⟨false⟩⟩, ⟨.Negotiated, none⟩, []⟩ 1
        [0x12, 0xE5] =
      HandlerOutcome.statusErr SpdmStatus.unsupportedCap :=
  (secured_dispatch_session_gating
    ⟨⟨0x12, 0, ⟨false⟩, ⟨false⟩⟩, ⟨.Negotiated, none⟩, []⟩ 1
    [0x12, 0xE5]).2.1 rfl

/-- C6.  When the session AEAD fails to decrypt/authenticate a secured
message, `process_message` aborts the exchange and returns the raw
received bytes, and the affected session is torn down (subsequent lookup
by its id is absent). -/
theorem decrypt_failure_surfaces_raw_and_tears_down (ctx : SpdmContext)
    (buffer : List Nat) (sid : Nat) (sess : SpdmSession)
    (dar : Option (List Nat × Bool))
    (h1 : u32_read buffer = some sid)
    (h2 : get_session_via_id ctx sid = some sess) :
    process_message ctx buffer true false dar =
      ProcessOutcome.raw buffer.length buffer (teardown_session ctx sid) ∧
    get_session_via_id (teardown_session ctx sid) sid = none := by
  constructor
  · simp [process_message, h1, h2, decode_spdm_secured_message]
  · exact get_session_via_id_teardown ctx sid

/-- Witness for C6: decrypt failure on session 1 surfaces the raw frame and
removes the session. -/
theorem decrypt_failure_surfaces_raw_and_tears_down_witness :
    process_message
        ⟨⟨0x12, 0, ⟨false⟩, ⟨false⟩⟩, ⟨.Negotiated, none⟩,
          [⟨1, .Handshaking⟩]⟩
        [0x01, 0x00, 0x00, 0x00] true false none =
      ProcessOutcome.raw 4 [0x01, 0x00, 0x00, 0x00]
        (teardown_session
          ⟨⟨0x12, 0, ⟨false⟩, ⟨false⟩⟩, ⟨.Negotiated, none⟩,
            [⟨1, .Handshaking⟩]⟩ 1) :=
  (decrypt_failure_surfaces_raw_and_tears_down
    ⟨⟨0x12, 0, ⟨false⟩, ⟨false⟩⟩, ⟨.Negotiated, none⟩, [⟨1, .Handshaking⟩]⟩
    [0x01, 0x00, 0x00, 0x00] 1 ⟨1, .Handshaking⟩ none (by decide)
    (by decide)).1

/-- C3.  A clear-text FINISH is routed to the FINISH handler exactly when
both peers advertised HANDSHAKE_IN_THE_CLEAR_CAP and `last_session_id`
names an existing session in Handshaking; in every other case the
dispatcher answers with SPDM ERROR UnexpectedRequest.  On success —
`send_message` emitting the FINISH_RSP with no session id — the referenced
session becomes Established and `last_session_id` is cleared. -/
theorem finish_clear_routing (ctx : SpdmContext) (v : Nat) (rest : List Nat) :
    (∀ sid, dispatch_message ctx (v :: SpdmRequestFinish :: rest) =
        HandlerOutcome.handler HandlerName.finish (some sid) →
      handshake_in_the_clear ctx = true ∧
      ctx.runtime_info.last_session_id = some sid ∧
      ∃ sess, get_session_via_id ctx sid = some sess ∧
        sess.session_state = SpdmSessionState.Handshaking) ∧
    (∀ sid sess, handshake_in_the_clear ctx = true →
      ctx.runtime_info.last_session_id = some sid →
      get_session_via_id ctx sid = some sess →
      sess.session_state = SpdmSessionState.Handshaking →
      dispatch_message ctx (v :: SpdmRequestFinish :: rest) =
        HandlerOutcome.handler HandlerName.finish (some sid)) ∧
    ((¬ ∃ sid sess, handshake_in_the_clear ctx = true ∧
        ctx.runtime_info.last_session_id = some sid ∧
        get_session_via_id ctx sid = some sess ∧
        sess.session_state = SpdmSessionState.Handshaking) →
      dispatch_message ctx (v :: SpdmRequestFinish :: rest) =
        HandlerOutcome.errorRequest SpdmErrorCode.SpdmErrorUnexpectedRequest
          none) ∧
    (∀ send_buffer sid sess r ctx2,
      ¬ (ctx.negotiate_info.req_data_transfer_size_sel ≠ 0 ∧
        ctx.negotiate_info.req_data_transfer_size_sel < send_buffer.length) →
      send_buffer.getD 1 0 = SpdmResponseFinishRsp →
      ctx.runtime_info.last_session_id = some sid →
      get_session_via_id ctx sid = some sess →
      send_message ctx none send_buffer false true = some (r, ctx2) →
      get_session_via_id ctx2 sid =
        some ⟨sid, SpdmSessionState.Established⟩ ∧
      ctx2.runtime_info.last_session_id = none) := by
  refine ⟨fun sid h => ?_, fun sid sess hic hL hQ hs => ?_, fun hno => ?_,
    fun send_buffer sid sess r ctx2 hsize hop hL hQ h => ?_⟩
  · cases hic : handshake_in_the_clear ctx with
    | false =>
      simp [dispatch_message, SpdmMessageHeader.read, hic,
        SpdmRequestGetVersion, SpdmRequestGetCapabilities,
        SpdmRequestNegotiateAlgorithms, SpdmRequestGetDigests,
        SpdmRequestGetCertificate, SpdmRequestChallenge,
        SpdmRequestGetMeasurements, SpdmRequestKeyExchange,
        SpdmRequestPskExchange, SpdmRequestVendorDefinedRequest,
        SpdmRequestFinish] at h
    | true =>
      rcases hL : ctx.runtime_info.last_session_id with _ | sid'
      · simp [dispatch_message, SpdmMessageHeader.read, hic, hL,
          SpdmRequestGetVersion, SpdmRequestGetCapabilities,
          SpdmRequestNegotiateAlgorithms, SpdmRequestGetDigests,
          SpdmRequestGetCertificate, SpdmRequestChallenge,
          SpdmRequestGetMeasurements, SpdmRequestKeyExchange,
          SpdmRequestPskExchange, SpdmRequestVendorDefinedRequest,
          SpdmRequestFinish] at h
      · rcases hQ : get_session_via_id ctx sid' with _ | sess
        · simp [dispatch_message, SpdmMessageHeader.read, hic, hL, hQ,
            SpdmRequestGetVersion, SpdmRequestGetCapabilities,
            SpdmRequestNegotiateAlgorithms, SpdmRequestGetDigests,
            SpdmRequestGetCertificate, SpdmRequestChallenge,
            SpdmRequestGetMeasurements, SpdmRequestKeyExchange,
            SpdmRequestPskExchange, SpdmRequestVendorDefinedRequest,
            SpdmRequestFinish] at h
        · by_cases hs : sess.session_state = SpdmSessionState.Handshaking
          · simp [dispatch_message, SpdmMessageHeader.read, hic, hL, hQ, hs,
              SpdmRequestGetVersion, SpdmRequestGetCapabilities,
              SpdmRequestNegotiateAlgorithms, SpdmRequestGetDigests,
              SpdmRequestGetCertificate, SpdmRequestChallenge,
              SpdmRequestGetMeasurements, SpdmRequestKeyExchange,
              SpdmRequestPskExchange, SpdmRequestVendorDefinedRequest,
              SpdmRequestFinish] at h
            subst h
            exact ⟨rfl, rfl, sess, hQ, hs⟩
          · simp [dispatch_message, SpdmMessageHeader.read, hic, hL, hQ, hs,
              SpdmRequestGetVersion, SpdmRequestGetCapabilities,
              SpdmRequestNegotiateAlgorithms, SpdmRequestGetDigests,
              SpdmRequestGetCertificate, SpdmRequestChallenge,
              SpdmRequestGetMeasurements, SpdmRequestKeyExchange,
              SpdmRequestPskExchange, SpdmRequestVendorDefinedRequest,
              SpdmRequestFinish] at h
  · simp [dispatch_message, SpdmMessageHeader.read, hic, hL, hQ, hs,
      SpdmRequestGetVersion, SpdmRequestGetCapabilities,
      SpdmRequestNegotiateAlgorithms, SpdmRequestGetDigests,
      SpdmRequestGetCertificate, SpdmRequestChallenge,
      SpdmRequestGetMeasurements, SpdmRequestKeyExchange,
      SpdmRequestPskExchange, SpdmRequestVendorDefinedRequest,
      SpdmRequestFinish]
  · cases hic : handshake_in_the_clear ctx with
    | false =>
      simp [dispatch_message, SpdmMessageHeader.read, hic,
        SpdmRequestGetVersion, SpdmRequestGetCapabilities,
        SpdmRequestNegotiateAlgorithms, SpdmRequestGetDigests,
        SpdmRequestGetCertificate, SpdmRequestChallenge,
        SpdmRequestGetMeasurements, SpdmRequestKeyExchange,
        SpdmRequestPskExchange, SpdmRequestVendorDefinedRequest,
        SpdmRequestFinish]
    | true =>
      rcases hL : ctx.runtime_info.last_session_id with _ | sid'
      · simp [dispatch_message, SpdmMessageHeader.read, hic, hL,
          SpdmRequestGetVersion, SpdmRequestGetCapabilities,
          SpdmRequestNegotiateAlgorithms, SpdmRequestGetDigests,
          SpdmRequestGetCertificate, SpdmRequestChallenge,
          SpdmRequestGetMeasurements, SpdmRequestKeyExchange,
          SpdmRequestPskExchange, SpdmRequestVendorDefinedRequest,
          SpdmRequestFinish]
      · rcases hQ : get_session_via_id ctx sid' with _ | sess
        · simp [dispatch_message, SpdmMessageHeader.read, hic, hL, hQ,
            SpdmRequestGetVersion, SpdmRequestGetCapabilities,
            SpdmRequestNegotiateAlgorithms, SpdmRequestGetDigests,
            SpdmRequestGetCertificate, SpdmRequestChallenge,
            SpdmRequestGetMeasurements, SpdmRequestKeyExchange,
            SpdmRequestPskExchange, SpdmRequestVendorDefinedRequest,
            SpdmRequestFinish]
        · by_cases hs : sess.session_state = SpdmSessionState.Handshaking
          · exact absurd ⟨sid', sess, hic, hL, hQ, hs⟩ hno
          · simp [dispatch_message, SpdmMessageHeader.read, hic, hL, hQ, hs,
              SpdmRequestGetVersion, SpdmRequestGetCapabilities,
              SpdmRequestNegotiateAlgorithms, SpdmRequestGetDigests,
              SpdmRequestGetCertificate, SpdmRequestChallenge,
              SpdmRequestGetMeasurements, SpdmRequestKeyExchange,
              SpdmRequestPskExchange, SpdmRequestVendorDefinedRequest,
              SpdmRequestFinish]
  · have heff : effective_send_buffer ctx none send_buffer false =
        send_buffer := by
      rw [effective_send_buffer, if_neg hsize, if_neg (by simp)]
    have hlen : ¬ (effective_send_buffer ctx none send_buffer
        false).length < 2 := by
      have := getD_one_ne_zero_two_le_length send_buffer
        (by rw [hop]; simp [SpdmResponseFinishRsp])
      rw [heff]; omega
    rw [send_message_eq_update ctx none send_buffer false hlen, heff,
      hop] at h
    simp [send_state_update, hL, hQ, SpdmResponseFinishRsp,
      SpdmResponseVersion, SpdmResponseCapabilities, SpdmResponseAlgorithms,
      SpdmResponseDigests, SpdmResponseCertificate,
      SpdmResponseChallengeAuth] at h
    obtain ⟨hr, hctx⟩ := h
    rw [← hctx]
    constructor
    · rw [get_session_via_id_set_last]
      exact get_session_via_id_set_state ctx sid SpdmSessionState.Established
        sess hQ
    · rfl

/-- Witness for C3: with both in-the-clear caps and session 1 Handshaking
referenced by `last_session_id`, a clear FINISH routes to the FINISH
handler; sending the FINISH_RSP establishes session 1 and clears
`last_session_id`. -/
theorem finish_clear_routing_witness :
    dispatch_message
        ⟨⟨0x12, 0, ⟨true⟩, ⟨true⟩⟩, ⟨.Negotiated, some 1⟩,
          [⟨1, .Handshaking⟩]⟩ [0x12, SpdmRequestFinish] =
      HandlerOutcome.handler HandlerName.finish (some 1) :=
  (finish_clear_routing
    ⟨⟨0x12, 0, ⟨true⟩, ⟨true⟩⟩, ⟨.Negotiated, some 1⟩, [⟨1, .Handshaking⟩]⟩
    0x12 []).2.1 1 ⟨1, .Handshaking⟩ rfl rfl (by decide) rfl

/-- C4 (counterexample).  Session 1 is Handshaking and both peers
advertised HANDSHAKE_IN_THE_CLEAR_CAP; a secured FINISH is rejected with
the internal status SPDM_STATUS_UNSUPPORTED_CAP, which is not an SPDM
ERROR UnsupportedRequest response (no `handle_error_request` call, no
response frame at all). -/
theorem secured_finish_in_clear_no_error_response :
    dispatch_secured_message
        ⟨⟨0x12, 0, ⟨true⟩, ⟨true⟩⟩, ⟨.Negotiated, some 1⟩,
          [⟨1, .Handshaking⟩]⟩ 1 [0x12, 0xE5] =
      HandlerOutcome.statusErr SpdmStatus.unsupportedCap ∧
    HandlerOutcome.statusErr SpdmStatus.unsupportedCap ≠
      HandlerOutcome.errorRequest SpdmErrorCode.SpdmErrorUnsupportedRequest
        (some 1) :=
  ⟨by decide, by decide⟩

/-- C4 (amended).  With both HANDSHAKE_IN_THE_CLEAR_CAP flags negotiated
and the session Handshaking, every secured message (FINISH included) is
rejected before parsing: the dispatch returns
SPDM_STATUS_UNSUPPORTED_CAP, no handler runs, no SPDM ERROR response is
emitted, and the context — hence the session's Handshaking state — is
unchanged. -/
theorem secured_finish_in_clear_rejected (ctx : SpdmContext) (sid : Nat)
    (bytes : List Nat) (sess : SpdmSession)
    (h1 : get_session_via_id ctx sid = some sess)
    (h2 : sess.session_state = SpdmSessionState.Handshaking)
    (h3 : handshake_in_the_clear ctx = true) :
    dispatch_secured_message ctx sid bytes =
      HandlerOutcome.statusErr SpdmStatus.unsupportedCap ∧
    (∀ buffer, u32_read buffer = some sid →
      process_message ctx buffer true true (some (bytes, false)) =
        ProcessOutcome.handledSecured
          (HandlerOutcome.statusErr SpdmStatus.unsupportedCap) ctx) := by
  have hd : dispatch_secured_message ctx sid bytes =
      HandlerOutcome.statusErr SpdmStatus.unsupportedCap := by
    simp [dispatch_secured_message, h1, h2, h3]
  refine ⟨hd, fun buffer hu => ?_⟩
  simp [process_message, hu, h1, decode_spdm_secured_message, hd]

/-- Witness for the amended C4: the full receive path hands back an
unchanged context when a secured FINISH arrives during an in-the-clear
handshake. -/
theorem secured_finish_in_clear_rejected_witness :
    process_message
        ⟨⟨0x12, 0, ⟨true⟩, ⟨true⟩⟩, ⟨.Negotiated, some 1⟩,
          [⟨1, .Handshaking⟩]⟩
        [0x01, 0x00, 0x00, 0x00] true true (some ([0x12, 0xE5], false)) =
      ProcessOutcome.handledSecured
        (HandlerOutcome.statusErr SpdmStatus.unsupportedCap)
        ⟨⟨0x12, 0, ⟨true⟩, ⟨true⟩⟩, ⟨.Negotiated, some 1⟩,
          [⟨1, .Handshaking⟩]⟩ :=
  (secured_finish_in_clear_rejected
    ⟨⟨0x12, 0, ⟨true⟩, ⟨true⟩⟩, ⟨.Negotiated, some 1⟩, [⟨1, .Handshaking⟩]⟩
    1 [0x12, 0xE5] ⟨1, .Handshaking⟩ (by decide) rfl rfl).2
    [0x01, 0x00, 0x00, 0x00] (by decide)

/-- C5 (counterexample).  In Handshaking with both
HANDSHAKE_IN_THE_CLEAR_CAP flags negotiated, a secured GET_VERSION (a
forbidden-set code) yields SPDM_STATUS_UNSUPPORTED_CAP, not the SPDM
ERROR UnexpectedRequest the claim promises for every forbidden-set
request. -/
theorem handshaking_forbidden_in_clear_no_error_response :
    dispatch_secured_message
        ⟨⟨0x12, 0, ⟨true⟩, ⟨true⟩⟩, ⟨.Negotiated, some 1⟩,
          [⟨1, .Handshaking⟩]⟩ 1 [0x12, 0x84] =
      HandlerOutcome.statusErr SpdmStatus.unsupportedCap ∧
    HandlerOutcome.statusErr SpdmStatus.unsupportedCap ≠
      HandlerOutcome.errorRequest SpdmErrorCode.SpdmErrorUnexpectedRequest
        (some 1) :=
  ⟨by decide, by decide⟩

/-- C5 (amended).  In session state Handshaking a forbidden-set request
never invokes its underlying handler; when handshake-in-the-clear was not
negotiated on both sides it is answered with SPDM ERROR UnexpectedRequest
(RESPONSE_IF_READY with UnsupportedRequest), while when both sides
negotiated HANDSHAKE_IN_THE_CLEAR_CAP the dispatch instead fails with
SPDM_STATUS_UNSUPPORTED_CAP and produces no response. -/
theorem handshaking_forbidden_isolation (ctx : SpdmContext) (sid : Nat)
    (v c : Nat) (rest : List Nat) (sess : SpdmSession)
    (h1 : get_session_via_id ctx sid = some sess)
    (h2 : sess.session_state = SpdmSessionState.Handshaking) :
    (c ∈ handshaking_forbidden_codes →
      ∀ hn s, dispatch_secured_message ctx sid (v :: c :: rest) ≠
        HandlerOutcome.handler hn s) ∧
    (c ∈ handshaking_forbidden_codes → handshake_in_the_clear ctx = false →
      dispatch_secured_message ctx sid (v :: c :: rest) =
        HandlerOutcome.errorRequest SpdmErrorCode.SpdmErrorUnexpectedRequest
          (some sid)) ∧
    (handshake_in_the_clear ctx = false →
      dispatch_secured_message ctx sid
          (v :: SpdmRequestResponseIfReady :: rest) =
        HandlerOutcome.errorRequest SpdmErrorCode.SpdmErrorUnsupportedRequest
          (some sid)) ∧
    (handshake_in_the_clear ctx = true →
      dispatch_secured_message ctx sid (v :: c :: rest) =
        HandlerOutcome.statusErr SpdmStatus.unsupportedCap) := by
  have hclear : handshake_in_the_clear ctx = true →
      dispatch_secured_message ctx sid (v :: c :: rest) =
        HandlerOutcome.statusErr SpdmStatus.unsupportedCap := by
    intro hic
    simp [dispatch_secured_message, h1, h2, hic]
  have hforb : c ∈ handshaking_forbidden_codes →
      handshake_in_the_clear ctx = false →
      dispatch_secured_message ctx sid (v :: c :: rest) =
        HandlerOutcome.errorRequest SpdmErrorCode.SpdmErrorUnexpectedRequest
          (some sid) := by
    intro hm hic
    simp only [handshaking_forbidden_codes, List.mem_cons,
      List.not_mem_nil, or_false] at hm
    rcases hm with rfl | rfl | rfl | rfl | rfl | rfl | rfl | rfl | rfl |
      rfl | rfl | rfl <;>
      simp [dispatch_secured_message, h1, h2, hic, SpdmMessageHeader.read,
        SpdmRequestGetVersion, SpdmRequestGetCapabilities,
        SpdmRequestNegotiateAlgorithms, SpdmRequestGetDigests,
        SpdmRequestGetCertificate, SpdmRequestChallenge,
        SpdmRequestGetMeasurements, SpdmRequestKeyExchange,
        SpdmRequestPskExchange, SpdmRequestHeartbeat, SpdmRequestKeyUpdate,
        SpdmRequestEndSession, SpdmRequestGetEncapsulatedRequest,
        SpdmRequestDeliverEncapsulatedResponse, SpdmRequestFinish,
        SpdmRequestPskFinish, SpdmRequestVendorDefinedRequest,
        SpdmRequestResponseIfReady]
  refine ⟨fun hm hn s => ?_, hforb, fun hic => ?_, hclear⟩
  · cases hic : handshake_in_the_clear ctx with
    | true => rw [hclear hic]; simp
    | false => rw [hforb hm hic]; simp
  · simp [dispatch_secured_message, h1, h2, hic, SpdmMessageHeader.read,
      SpdmRequestGetVersion, SpdmRequestGetCapabilities,
      SpdmRequestNegotiateAlgorithms, SpdmRequestGetDigests,
      SpdmRequestGetCertificate, SpdmRequestChallenge,
      SpdmRequestGetMeasurements, SpdmRequestKeyExchange,
      SpdmRequestPskExchange, SpdmRequestHeartbeat, SpdmRequestKeyUpdate,
      SpdmRequestEndSession, SpdmRequestGetEncapsulatedRequest,
      SpdmRequestDeliverEncapsulatedResponse, SpdmRequestFinish,
      SpdmRequestPskFinish, SpdmRequestVendorDefinedRequest,
      SpdmRequestResponseIfReady]

/-- Witness for the amended C5: a secured GET_VERSION during a normal
(secured) handshake is answered with SPDM ERROR UnexpectedRequest. -/
theorem handshaking_forbidden_isolation_witness :
    dispatch_secured_message
        ⟨⟨0x12, 0, ⟨false⟩, ⟨false⟩⟩, ⟨.Negotiated, some 1⟩,
          [⟨1, .Handshaking⟩]⟩ 1 [0x12, 0x84] =
      HandlerOutcome.errorRequest SpdmErrorCode.SpdmErrorUnexpectedRequest
        (some 1) :=
  (handshaking_forbidden_isolation
    ⟨⟨0x12, 0, ⟨false⟩, ⟨false⟩⟩, ⟨.Negotiated, some 1⟩, [⟨1, .Handshaking⟩]⟩
    1 0x12 0x84 [] ⟨1, .Handshaking⟩ (by decide) rfl).2.1 (by decide) rfl

/-- Witness for C7: a DIGESTS response sent at Authenticated leaves the
state at Authenticated = max(Authenticated, AfterDigest). -/
theorem digest_certificate_connection_state_max_witness :
    (⟨⟨0x12, 0, ⟨false⟩, ⟨false⟩⟩, ⟨.Authenticated, none⟩, []⟩ :
        SpdmContext).runtime_info.connection_state.get_u8 =
      max (⟨⟨0x12, 0, ⟨false⟩, ⟨false⟩⟩, ⟨.Authenticated, none⟩, []⟩ :
          SpdmContext).runtime_info.connection_state.get_u8
        SpdmConnectionState.AfterDigest.get_u8 :=
  (digest_certificate_connection_state_max
    ⟨⟨0x12, 0, ⟨false⟩, ⟨false⟩⟩, ⟨.Authenticated, none⟩, []⟩ none
    [0x12, 0x01, 0x00, 0x00] false SpdmResultE.ok
    ⟨⟨0x12, 0, ⟨false⟩, ⟨false⟩⟩, ⟨.Authenticated, none⟩, []⟩
    (by decide)).1 (by decide)

/-- C10.  `dispatch_secured_app_message` unconditionally unwraps the result
of the app-message callback: for every context, session id, and I/O
outcome, a callback error makes the function panic (`none`), so the
callback-failure path never returns an error and never produces an SPDM
ERROR response (no response of any kind is sent). -/
theorem dispatch_secured_app_message_cb_err_panics (ctx : SpdmContext)
    (session_id : Nat) (io_ok : Bool) :
    dispatch_secured_app_message ctx session_id none io_ok = none := rfl

/-- C8.  `send_message` sends exactly `effective_send_buffer`: an ERROR
ResponseTooLarge frame when `req_data_transfer_size_sel` is non-zero and
the buffer is longer, else an ERROR SessionRequired frame when the message
is an app message without a session id, else the caller's buffer
unchanged. -/
theorem effective_send_buffer_spec (ctx : SpdmContext)
    (session_id : Option Nat) (send_buffer : List Nat) (is_app_message : Bool) :
    (ctx.negotiate_info.req_data_transfer_size_sel ≠ 0 ∧
        ctx.negotiate_info.req_data_transfer_size_sel < send_buffer.length →
      effective_send_buffer ctx session_id send_buffer is_app_message =
        write_spdm_error ctx.negotiate_info.spdm_version_sel
          .SpdmErrorResponseTooLarge 0) ∧
    (¬ (ctx.negotiate_info.req_data_transfer_size_sel ≠ 0 ∧
        ctx.negotiate_info.req_data_transfer_size_sel < send_buffer.length) →
      is_app_message = true → session_id = none →
      effective_send_buffer ctx session_id send_buffer is_app_message =
        write_spdm_error ctx.negotiate_info.spdm_version_sel
          .SpdmErrorSessionRequired 0) ∧
    (¬ (ctx.negotiate_info.req_data_transfer_size_sel ≠ 0 ∧
        ctx.negotiate_info.req_data_transfer_size_sel < send_buffer.length) →
      ¬ (is_app_message = true ∧ session_id = none) →
      effective_send_buffer ctx session_id send_buffer is_app_message =
        send_buffer) := by
  refine ⟨fun h => ?_, fun h1 h2 h3 => ?_, fun h1 h2 => ?_⟩
  · rw [effective_send_buffer, if_pos h]
  · rw [effective_send_buffer, if_neg h1, if_pos ⟨h2, h3⟩]
  · rw [effective_send_buffer, if_neg h1, if_neg h2]

/-- Witness for C8: with `req_data_transfer_size_sel = 3` a four-byte
DIGESTS response is overwritten by the ResponseTooLarge ERROR frame. -/
theorem effective_send_buffer_spec_witness :
    effective_send_buffer
        ⟨⟨0x12, 3, ⟨false⟩, ⟨false⟩⟩, ⟨.Negotiated, none⟩, []⟩ none
        [0x12, 0x01, 0x00, 0x00] false =
      [0x12, 0x7F, 0x0D, 0x00] :=
  (effective_send_buffer_spec
      ⟨⟨0x12, 3, ⟨false⟩, ⟨false⟩⟩, ⟨.Negotiated, none⟩, []⟩ none
      [0x12, 0x01, 0x00, 0x00] false).1 (by decide)

end Spdm
